import Mathlib

/-!
Shallow embedding of `src/dashboard.py`, a Streamlit dashboard over a CSV of
social-media usage and mental-health indicators.  Records are rows of the CSV;
numeric columns are modelled as rationals, `Age` as an integer.  The derived
`Age_Range` column, the three sidebar filters, the four metric cards, the
radar-chart traces and the Pearson correlation matrix are translated directly
from the script.
-/

/-- One row of the source CSV `Mental_Health_and_Social_Media_Balance_Dataset.csv`,
with the fixed schema used by the dashboard. -/
structure Record where
  age : Int
  gender : String
  socialMediaPlatform : String
  dailyScreenTimeHrs : ℚ
  sleepQuality : ℚ
  stressLevel : ℚ
  happinessIndex : ℚ
  exerciseFrequencyWeek : ℚ
deriving DecidableEq

/-- `bins = [10, 20, 25, 30, 35, 40, 50, 100]` from `load_data`. -/
def ageBins : List Int := [10, 20, 25, 30, 35, 40, 50, 100]

/-- `labels = ["15-20", ..., "50+"]` from `load_data`. -/
def ageLabels : List String := ["15-20", "21-25", "26-30", "31-35", "36-40", "41-50", "50+"]

/-- Core of `pd.cut`: walk the bin edges; each bin is left-exclusive and
right-inclusive, except that when `includeLowest` is set the first bin also
contains its lower edge (this is pandas `include_lowest=True`).  A value in no
bin gets no label (pandas NaN). -/
def cutFrom : Int → Bool → List Int → List String → Int → Option String
  | lo, true, hi :: bs, lab :: ls, x =>
    if lo ≤ x ∧ x ≤ hi then some lab else cutFrom hi false bs ls x
  | lo, false, hi :: bs, lab :: ls, x =>
    if lo < x ∧ x ≤ hi then some lab else cutFrom hi false bs ls x
  | _, _, _, _, _ => none

/-- `pd.cut(x, bins=bins, labels=labels, include_lowest=True)` for a single value. -/
def pdCut (bins : List Int) (labels : List String) (x : Int) : Option String :=
  match bins with
  | [] => none
  | lo :: rest => cutFrom lo true rest labels x

/-- The derived `Age_Range` value for one `Age`, as computed in `load_data`. -/
def ageBucket (a : Int) : Option String := pdCut ageBins ageLabels a

/-- A row of the loaded table: the CSV row plus the derived `Age_Range` column
(`none` models pandas NaN for an out-of-range age). -/
structure LoadedRecord extends Record where
  ageRange : Option String
deriving DecidableEq

/-- Attach the derived `Age_Range` column to one row. -/
def addAgeRange (r : Record) : LoadedRecord := { r with ageRange := ageBucket r.age }

/-- `df["Age_Range"] = pd.cut(df["Age"], ...)` applied to the whole table. -/
def loadTable (rows : List Record) : List LoadedRecord := rows.map addAgeRange

/-- Outcome of the `pd.read_csv` call inside `load_data`: success with the
parsed rows, a missing file, or any other read/parse failure with its message. -/
inductive ReadOutcome where
  | ok (rows : List Record)
  | fileNotFound
  | otherError (msg : String)

/-- The literal message passed to `st.error` in the `FileNotFoundError` branch. -/
def fileNotFoundMessage : String :=
  "Error: The data file \x27Mental_Health_and_Social_Media_Balance_Dataset.csv\x27 was not found. Please make sure it\x27s in the same directory as the dashboard."

/-- `load_data`: on success it returns the table with the derived column and no
error; on `FileNotFoundError` or any other exception it emits one `st.error`
message and returns `None`. -/
def loadData : ReadOutcome → Option (List LoadedRecord) × List String
  | .ok rows => (some (loadTable rows), [])
  | .fileNotFound => (none, [fileNotFoundMessage])
  | .otherError e => (none, ["Error loading data: " ++ e])

/-- `Series.unique()`: the distinct values of a list in order of first occurrence. -/
def uniqueVals {α : Type} [DecidableEq α] : List α → List α
  | [] => []
  | a :: l => a :: uniqueVals (l.filter fun b => b ≠ a)
termination_by l => l.length
decreasing_by
  simp only [List.length_cons]
  exact Nat.lt_succ_of_le (List.length_filter_le _ _)

/-- Default (and option) set of the platform multiselect:
`df["Social_Media_Platform"].unique()`. -/
def defaultPlatforms (df : List LoadedRecord) : List String :=
  uniqueVals (df.map fun r => r.socialMediaPlatform)

/-- Default (and option) set of the age-range multiselect: `df["Age_Range"].unique()`. -/
def defaultAgeRanges (df : List LoadedRecord) : List (Option String) :=
  uniqueVals (df.map fun r => r.ageRange)

/-- Default (and option) set of the gender multiselect: `df["Gender"].unique()`. -/
def defaultGenders (df : List LoadedRecord) : List String :=
  uniqueVals (df.map fun r => r.gender)

/-- The `filtered_df` computation: rows whose platform, age range and gender
are each members of the corresponding selection (three `isin` masks ANDed). -/
def filteredTable (df : List LoadedRecord) (selPlatform : List String)
    (selAgeRange : List (Option String)) (selGender : List String) : List LoadedRecord :=
  df.filter fun r =>
    decide (r.socialMediaPlatform ∈ selPlatform) &&
    decide (r.ageRange ∈ selAgeRange) &&
    decide (r.gender ∈ selGender)

/-- `Series.mean()`: arithmetic mean of a column, NaN (modelled `none`) when the
column is empty. -/
def seriesMean (xs : List ℚ) : Option ℚ :=
  if xs.length = 0 then none else some (xs.sum / (xs.length : ℚ))

/-- Subtraction of two possibly-NaN values (NaN propagates). -/
def optSub : Option ℚ → Option ℚ → Option ℚ
  | some a, some b => some (a - b)
  | _, _ => none

/-- Mean of `Happiness_Index(1-10)` over a table. -/
def happinessMean (df : List LoadedRecord) : Option ℚ :=
  seriesMean (df.map fun r => r.happinessIndex)

/-- Mean of `Stress_Level(1-10)` over a table. -/
def stressMean (df : List LoadedRecord) : Option ℚ :=
  seriesMean (df.map fun r => r.stressLevel)

/-- Mean of `Daily_Screen_Time(hrs)` over a table. -/
def screenTimeMean (df : List LoadedRecord) : Option ℚ :=
  seriesMean (df.map fun r => r.dailyScreenTimeHrs)

/-- Mean of `Exercise_Frequency(week)` over a table. -/
def exerciseMean (df : List LoadedRecord) : Option ℚ :=
  seriesMean (df.map fun r => r.exerciseFrequencyWeek)

/-- The four `st.metric` cards in source order (happiness, stress, screen time,
exercise); each card is (displayed value, displayed delta), with the exact
subtraction order of the script: the stress delta is overall minus filtered,
the other three are filtered minus overall. -/
def metricCards (df filtered_df : List LoadedRecord) : List (Option ℚ × Option ℚ) :=
  [ (happinessMean filtered_df, optSub (happinessMean filtered_df) (happinessMean df)),
    (stressMean filtered_df, optSub (stressMean df) (stressMean filtered_df)),
    (screenTimeMean filtered_df, optSub (screenTimeMean filtered_df) (screenTimeMean df)),
    (exerciseMean filtered_df, optSub (exerciseMean filtered_df) (exerciseMean df)) ]

/-- The `categories` list of the radar chart, as column projections. -/
def radarCategories : List (LoadedRecord → ℚ) :=
  [fun r => r.sleepQuality, fun r => r.stressLevel,
   fun r => r.happinessIndex, fun r => r.exerciseFrequencyWeek]

/-- One radar trace: `platform_data[categories].mean().tolist()` followed by
`values += values[:1]` (the first value is appended to close the polygon). -/
def radarValues (filtered_df : List LoadedRecord) (platform : String) : List (Option ℚ) :=
  let platform_data := filtered_df.filter fun r => r.socialMediaPlatform == platform
  let values := radarCategories.map fun c => seriesMean (platform_data.map c)
  values ++ values.take 1

/-- The loop `for platform in selected_platform:` building one radar trace per
currently selected platform. -/
def radarTraces (filtered_df : List LoadedRecord) (selected_platform : List String) :
    List (String × List (Option ℚ)) :=
  selected_platform.map fun p => (p, radarValues filtered_df p)

/-- `numeric_cols = filtered_df.select_dtypes(include=[np.number]).columns`:
the six numeric columns of the table (`Age_Range` is categorical, `Gender` and
`Social_Media_Platform` are strings, so they are excluded), as projections. -/
def numericProjections : List (LoadedRecord → ℚ) :=
  [fun r => (r.age : ℚ), fun r => r.dailyScreenTimeHrs, fun r => r.sleepQuality,
   fun r => r.stressLevel, fun r => r.happinessIndex, fun r => r.exerciseFrequencyWeek]

/-- Mean of one numeric column (junk value `0` on the empty table; every use
below is guarded by a zero-variance test that already fires on the empty table). -/
def colMean (df : List LoadedRecord) (f : LoadedRecord → ℚ) : ℚ :=
  (df.map f).sum / (df.length : ℚ)

/-- Sum of products of deviations from the column means,
`Σ_r (f r - mean f) * (g r - mean g)`.  `covSum df f f` is the sum of squared
deviations of column `f`; the sample covariance and variance are these divided
by `n - 1`, and those normalisation factors cancel in the correlation ratio. -/
def covSum (df : List LoadedRecord) (f g : LoadedRecord → ℚ) : ℚ :=
  (df.map fun r => (f r - colMean df f) * (g r - colMean df g)).sum

/-- One entry of `filtered_df[numeric_cols].corr()`: the Pearson correlation
`cov(f,g) / (sd f * sd g)`.  Since the `1/(n-1)` factors cancel, this equals
`covSum f g / (sqrt (covSum f f) * sqrt (covSum g g))`.  When either column has
zero squared-deviation sum (constant column, or an empty or one-row table) the
divisor is zero and pandas produces NaN, modelled as `none`. -/
noncomputable def corrEntry (df : List LoadedRecord) (f g : LoadedRecord → ℚ) : Option ℝ :=
  if covSum df f f = 0 ∨ covSum df g g = 0 then none
  else some ((covSum df f g : ℝ) /
    (Real.sqrt (covSum df f f : ℚ) * Real.sqrt (covSum df g g : ℚ)))

/-- `corr = filtered_df[numeric_cols].corr()` as a matrix (list of rows) over
the six numeric columns. -/
noncomputable def corrMatrix (df : List LoadedRecord) : List (List (Option ℝ)) :=
  numericProjections.map fun f => numericProjections.map fun g => corrEntry df f g

/-- Entry `(i, j)` of a matrix stored as a list of rows; `none` when out of range. -/
def matrixGet {α : Type} (m : List (List α)) (i j : Nat) : Option α :=
  (m.get? i).bind fun row => row.get? j

/-- One rendered chart, identified by the data handed to the charting library:
most charts receive the filtered table itself; the radar chart receives its
traces; the heatmap receives the numeric columns its correlations are taken
over. -/
inductive Chart where
  | pie (rows : List LoadedRecord)
  | box (rows : List LoadedRecord)
  | scatterHappiness (rows : List LoadedRecord)
  | radar (traces : List (String × List (Option ℚ)))
  | histogram (rows : List LoadedRecord)
  | scatterExercise (rows : List LoadedRecord)
  | heatmap (columns : List (List ℚ))
deriving DecidableEq

/-- Everything the script renders in one top-to-bottom pass: the `st.error`
messages, the metric cards, the charts, and whether `st.stop()` was reached. -/
structure DashboardOutput where
  errors : List String
  metrics : List (Option ℚ × Option ℚ)
  charts : List Chart
  halted : Bool
deriving DecidableEq

/-- The script body: load the data; if loading failed (`df is None`) show the
error and `st.stop()` before any metric or chart; otherwise filter and render
the four metric cards and the seven charts. -/
def runDashboard (outcome : ReadOutcome) (selected_platform : List String)
    (selected_age_range : List (Option String)) (selected_gender : List String) :
    DashboardOutput :=
  match loadData outcome with
  | (none, errs) => { errors := errs, metrics := [], charts := [], halted := true }
  | (some df, errs) =>
    let filtered_df := filteredTable df selected_platform selected_age_range selected_gender
    { errors := errs
      metrics := metricCards df filtered_df
      charts := [Chart.pie filtered_df, Chart.box filtered_df,
                 Chart.scatterHappiness filtered_df,
                 Chart.radar (radarTraces filtered_df selected_platform),
                 Chart.histogram filtered_df, Chart.scatterExercise filtered_df,
                 Chart.heatmap (numericProjections.map fun f => filtered_df.map f)]
      halted := false }

/-! Example data, used by witnesses: the three-record scenario of the spec
(ages 18, 33, 60 with happiness 8, 4, 6) and a two-record table with a
constant `Age` column. -/

/-- Example row with age 18. -/
def exRecord1 : Record :=
  { age := 18, gender := "Female", socialMediaPlatform := "Instagram",
    dailyScreenTimeHrs := 3, sleepQuality := 7, stressLevel := 4,
    happinessIndex := 8, exerciseFrequencyWeek := 2 }

/-- Example row with age 33. -/
def exRecord2 : Record :=
  { age := 33, gender := "Male", socialMediaPlatform := "Twitter",
    dailyScreenTimeHrs := 5, sleepQuality := 6, stressLevel := 6,
    happinessIndex := 4, exerciseFrequencyWeek := 3 }

/-- Example row with age 60. -/
def exRecord3 : Record :=
  { age := 60, gender := "Female", socialMediaPlatform := "Facebook",
    dailyScreenTimeHrs := 2, sleepQuality := 8, stressLevel := 5,
    happinessIndex := 6, exerciseFrequencyWeek := 1 }

/-- The loaded three-record example table. -/
def exTable : List LoadedRecord := loadTable [exRecord1, exRecord2, exRecord3]

/-- The loaded one-record table holding only the first example row. -/
def exSub : List LoadedRecord := loadTable [exRecord1]

/-- A table whose `Age` column is constant (zero variance). -/
def cexTable : List LoadedRecord :=
  loadTable
    [{ age := 25, gender := "Male", socialMediaPlatform := "Instagram",
       dailyScreenTimeHrs := 4, sleepQuality := 5, stressLevel := 7,
       happinessIndex := 3, exerciseFrequencyWeek := 0 },
     { age := 25, gender := "Female", socialMediaPlatform := "Twitter",
       dailyScreenTimeHrs := 6, sleepQuality := 9, stressLevel := 2,
       happinessIndex := 9, exerciseFrequencyWeek := 5 }]

/-- Closed form of `ageBucket`: the nested interval tests produced by walking
the concrete bin edges. -/
theorem ageBucket_eq (a : Int) : ageBucket a =
    if 10 ≤ a ∧ a ≤ 20 then some "15-20"
    else if 20 < a ∧ a ≤ 25 then some "21-25"
    else if 25 < a ∧ a ≤ 30 then some "26-30"
    else if 30 < a ∧ a ≤ 35 then some "31-35"
    else if 35 < a ∧ a ≤ 40 then some "36-40"
    else if 40 < a ∧ a ≤ 50 then some "41-50"
    else if 50 < a ∧ a ≤ 100 then some "50+"
    else none := rfl

set_option maxHeartbeats 3200000 in
/-- Claim C2: the age-bucketing function is deterministic (it is a function)
and total on [10,100): every age there gets exactly one of the seven labels;
each bin is left-exclusive/right-inclusive except the first, which contains its
lower bound 10; the boundary values 20, 25, 30, 35, 40, 50 fall into the lower
of their two adjacent bins. -/
theorem ageBucket_bins_spec (a : Int) :
    ((ageBucket a = some "15-20") ↔ (10 ≤ a ∧ a ≤ 20)) ∧
    ((ageBucket a = some "21-25") ↔ (20 < a ∧ a ≤ 25)) ∧
    ((ageBucket a = some "26-30") ↔ (25 < a ∧ a ≤ 30)) ∧
    ((ageBucket a = some "31-35") ↔ (30 < a ∧ a ≤ 35)) ∧
    ((ageBucket a = some "36-40") ↔ (35 < a ∧ a ≤ 40)) ∧
    ((ageBucket a = some "41-50") ↔ (40 < a ∧ a ≤ 50)) ∧
    ((ageBucket a = some "50+") ↔ (50 < a ∧ a ≤ 100)) ∧
    (10 ≤ a → a < 100 → ∃ l ∈ ageLabels, ageBucket a = some l) := by
  refine ⟨?_, ?_, ?_, ?_, ?_, ?_, ?_, ?_⟩
  · rw [ageBucket_eq]; split_ifs <;> simp_all <;> omega
  · rw [ageBucket_eq]; split_ifs <;> simp_all <;> omega
  · rw [ageBucket_eq]; split_ifs <;> simp_all <;> omega
  · rw [ageBucket_eq]; split_ifs <;> simp_all <;> omega
  · rw [ageBucket_eq]; split_ifs <;> simp_all <;> omega
  · rw [ageBucket_eq]; split_ifs <;> simp_all <;> omega
  · rw [ageBucket_eq]; split_ifs <;> simp_all <;> omega
  · intro h1 h2
    rw [ageBucket_eq]
    split_ifs <;> simp_all [ageLabels] <;> omega

/-- Witness for C2 at age 33. -/
theorem ageBucket_bins_spec_witness :
    (10 ≤ (33 : Int) ∧ (33 : Int) < 100) ∧ (∃ l ∈ ageLabels, ageBucket 33 = some l) :=
  ⟨by decide, (ageBucket_bins_spec 33).2.2.2.2.2.2.2 (by decide) (by decide)⟩

/-- Claim C9: ages in [10,15), below the range named by the first label, are
assigned the first label "15-20" all the same; the first bin actually covers
the whole closed-below interval [10,20]. -/
theorem ageBucket_first_bin_covers_below (a : Int) :
    (10 ≤ a → a < 15 → ageBucket a = some "15-20") ∧
    (ageBucket a = some "15-20" ↔ 10 ≤ a ∧ a ≤ 20) := by
  constructor
  · intro h1 h2
    rw [ageBucket_eq]
    rw [if_pos ⟨h1, by omega⟩]
  · rw [ageBucket_eq]
    split_ifs <;> simp_all <;> omega

/-- Witness for C9 at age 12. -/
theorem ageBucket_first_bin_covers_below_witness :
    (10 ≤ (12 : Int) ∧ (12 : Int) < 15) ∧ ageBucket 12 = some "15-20" :=
  ⟨by decide, (ageBucket_first_bin_covers_below 12).1 (by decide) (by decide)⟩

/-- Claim C10: the bucketing is total over all integer ages: ages strictly
below 10 or strictly above 100 get no label (pandas NaN, modelled `none`)
rather than an error, and every row, labelled or not, stays in the loaded
table (which has exactly one row per input row). -/
theorem ageBucket_outside_domain (a : Int) (rows : List Record) (r : Record) :
    (a < 10 → ageBucket a = none) ∧
    (100 < a → ageBucket a = none) ∧
    (r ∈ rows → addAgeRange r ∈ loadTable rows) ∧
    (loadTable rows).length = rows.length := by
  refine ⟨?_, ?_, ?_, ?_⟩
  · intro h
    rw [ageBucket_eq]
    split_ifs <;> first | rfl | omega
  · intro h
    rw [ageBucket_eq]
    split_ifs <;> first | rfl | omega
  · intro h
    exact List.mem_map_of_mem _ h
  · simp [loadTable]

/-- Witness for C10 at ages 5 and 150 and a one-row table. -/
theorem ageBucket_outside_domain_witness :
    ((5 : Int) < 10 ∧ ageBucket 5 = none) ∧
    (100 < (150 : Int) ∧ ageBucket 150 = none) ∧
    addAgeRange exRecord1 ∈ loadTable [exRecord1] :=
  ⟨⟨by decide, (ageBucket_outside_domain 5 [exRecord1] exRecord1).1 (by decide)⟩,
   ⟨by decide, (ageBucket_outside_domain 150 [exRecord1] exRecord1).2.1 (by decide)⟩,
   (ageBucket_outside_domain 5 [exRecord1] exRecord1).2.2.1 (by decide)⟩

/-- Membership in `uniqueVals l` is membership in `l`. -/
theorem mem_uniqueVals {α : Type} [DecidableEq α] (l : List α) (x : α) :
    x ∈ uniqueVals l ↔ x ∈ l := by
  induction l using uniqueVals.induct with
  | case1 => simp [uniqueVals]
  | case2 a t ih =>
    rw [uniqueVals]
    simp only [List.mem_cons, ih, List.mem_filter, decide_eq_true_eq]
    by_cases hxa : x = a <;> simp [hxa]

/-- NaN propagation: subtracting from NaN gives NaN. -/
theorem optSub_none_left (b : Option ℚ) : optSub none b = none := by
  cases b <;> rfl

/-- NaN propagation: subtracting NaN gives NaN. -/
theorem optSub_none_right (a : Option ℚ) : optSub a none = none := by
  cases a <;> rfl

/-- Claim C1: a record is in the Filtered View iff its platform, age bucket
and gender each belong to the corresponding selection set (AND of the three
membership predicates), and an empty selection for any one filter yields an
empty Filtered View (no implicit select-all fallback). -/
theorem filteredTable_mem_iff (df : List LoadedRecord) (sp : List String)
    (sa : List (Option String)) (sg : List String) (r : LoadedRecord) :
    (r ∈ filteredTable df sp sa sg ↔
      r ∈ df ∧ r.socialMediaPlatform ∈ sp ∧ r.ageRange ∈ sa ∧ r.gender ∈ sg) ∧
    (sp = [] ∨ sa = [] ∨ sg = [] → filteredTable df sp sa sg = []) := by
  constructor
  · simp [filteredTable, List.mem_filter, and_assoc]
  · rintro (rfl | rfl | rfl) <;> simp [filteredTable, List.filter_eq_nil_iff]

/-- Witness for C1: an empty platform selection empties the example view. -/
theorem filteredTable_mem_iff_witness :
    filteredTable exTable [] [some "15-20"] ["Female"] = [] :=
  (filteredTable_mem_iff exTable [] [some "15-20"] ["Female"]
    (addAgeRange exRecord1)).2 (Or.inl rfl)

/-- Claim C6: the Filtered View is never larger than the full table, and when
each filter selects its full default set (the distinct values observed in the
loaded table for its column) it has exactly the full table's size. -/
theorem filteredTable_size (df : List LoadedRecord) (sp : List String)
    (sa : List (Option String)) (sg : List String) :
    (filteredTable df sp sa sg).length ≤ df.length ∧
    (filteredTable df (defaultPlatforms df) (defaultAgeRanges df)
      (defaultGenders df)).length = df.length := by
  constructor
  · exact List.length_filter_le _ _
  · have hfull : filteredTable df (defaultPlatforms df) (defaultAgeRanges df)
        (defaultGenders df) = df := by
      rw [filteredTable, List.filter_eq_self]
      intro r hr
      simp only [Bool.and_eq_true, decide_eq_true_eq, defaultPlatforms,
        defaultAgeRanges, defaultGenders, mem_uniqueVals]
      exact ⟨⟨List.mem_map_of_mem _ hr, List.mem_map_of_mem _ hr⟩,
        List.mem_map_of_mem _ hr⟩
    rw [hfull]

/-- Claim C5: on a missing file the dashboard shows exactly the fixed
file-not-found message, and on any other read error it shows exactly the
"Error loading data" message carrying the underlying error text; in both cases
it halts and renders no metric card and no chart. -/
theorem runDashboard_load_failure (sp : List String) (sa : List (Option String))
    (sg : List String) (e : String) :
    runDashboard .fileNotFound sp sa sg =
      { errors := [fileNotFoundMessage], metrics := [], charts := [], halted := true } ∧
    runDashboard (.otherError e) sp sa sg =
      { errors := ["Error loading data: " ++ e], metrics := [], charts := [],
        halted := true } :=
  ⟨rfl, rfl⟩

/-- Claim C4: when the Filtered View is empty, all four metric means (and
hence deltas) are the NaN sentinel; the cards are still produced, no exception
is modelled anywhere (all functions are total). -/
theorem metricCards_empty_view (df : List LoadedRecord) (sp : List String)
    (sa : List (Option String)) (sg : List String)
    (h : filteredTable df sp sa sg = []) :
    metricCards df (filteredTable df sp sa sg) =
      [(none, none), (none, none), (none, none), (none, none)] := by
  rw [h]
  simp [metricCards, happinessMean, stressMean, screenTimeMean, exerciseMean,
    seriesMean, optSub_none_left, optSub_none_right]

/-- Witness for C4: empty platform selection over the example table. -/
theorem metricCards_empty_view_witness :
    filteredTable exTable [] [] [] = [] ∧
    metricCards exTable (filteredTable exTable [] [] []) =
      [(none, none), (none, none), (none, none), (none, none)] :=
  ⟨by decide, metricCards_empty_view exTable [] [] [] (by decide)⟩

/-- Claim C3: the four metric cards follow the stated sign convention: the
stress card (position 1) shows overall mean minus filtered mean, while the
happiness, screen-time and exercise cards (positions 0, 2, 3) show filtered
mean minus overall mean. -/
theorem metricCards_delta_signs (df fd : List LoadedRecord) (a b : ℚ) :
    (happinessMean fd = some a → happinessMean df = some b →
      (metricCards df fd).get? 0 = some (some a, some (a - b))) ∧
    (stressMean fd = some a → stressMean df = some b →
      (metricCards df fd).get? 1 = some (some a, some (b - a))) ∧
    (screenTimeMean fd = some a → screenTimeMean df = some b →
      (metricCards df fd).get? 2 = some (some a, some (a - b))) ∧
    (exerciseMean fd = some a → exerciseMean df = some b →
      (metricCards df fd).get? 3 = some (some a, some (a - b))) := by
  refine ⟨?_, ?_, ?_, ?_⟩ <;> intro h1 h2 <;> simp [metricCards, h1, h2, optSub]

/-- Witness for C3 on the example table and its one-row subtable: the
happiness delta is filtered-minus-overall, the stress delta is
overall-minus-filtered. -/
theorem metricCards_delta_signs_witness :
    (metricCards exTable exSub).get? 0 = some (some 8, some (8 - 6)) ∧
    (metricCards exTable exSub).get? 1 = some (some 4, some (5 - 4)) :=
  ⟨(metricCards_delta_signs exTable exSub 8 6).1
      (by norm_num [happinessMean, seriesMean, exSub, loadTable, addAgeRange,
        exRecord1])
      (by norm_num [happinessMean, seriesMean, exTable, loadTable, addAgeRange,
        exRecord1, exRecord2, exRecord3]),
   (metricCards_delta_signs exTable exSub 4 5).2.1
      (by norm_num [stressMean, seriesMean, exSub, loadTable, addAgeRange,
        exRecord1])
      (by norm_num [stressMean, seriesMean, exTable, loadTable, addAgeRange,
        exRecord1, exRecord2, exRecord3])⟩

/-- Claim C8: for every platform in the current platform selection, the radar
trace for that platform is present and its value sequence is the per-platform
means (over the Filtered View restricted to that platform) of sleep quality,
stress, happiness and exercise frequency with the first value repeated at the
end: length five, last element equal to the first (a closed polygon). -/
theorem radarTraces_spec (filtered_df : List LoadedRecord) (sp : List String)
    (p : String) (hp : p ∈ sp) :
    (p, radarValues filtered_df p) ∈ radarTraces filtered_df sp ∧
    radarValues filtered_df p =
      [seriesMean ((filtered_df.filter fun r => r.socialMediaPlatform == p).map
          fun r => r.sleepQuality),
       seriesMean ((filtered_df.filter fun r => r.socialMediaPlatform == p).map
          fun r => r.stressLevel),
       seriesMean ((filtered_df.filter fun r => r.socialMediaPlatform == p).map
          fun r => r.happinessIndex),
       seriesMean ((filtered_df.filter fun r => r.socialMediaPlatform == p).map
          fun r => r.exerciseFrequencyWeek),
       seriesMean ((filtered_df.filter fun r => r.socialMediaPlatform == p).map
          fun r => r.sleepQuality)] ∧
    (radarValues filtered_df p).length = 5 ∧
    (radarValues filtered_df p).getLast? = (radarValues filtered_df p).head? :=
  ⟨List.mem_map_of_mem _ hp, rfl, rfl, rfl⟩

/-- Witness for C8: the Instagram trace over the example table. -/
theorem radarTraces_spec_witness :
    "Instagram" ∈ ["Instagram", "Twitter"] ∧
    ("Instagram", radarValues exTable "Instagram") ∈
      radarTraces exTable ["Instagram", "Twitter"] ∧
    (radarValues exTable "Instagram").length = 5 :=
  ⟨by decide,
   (radarTraces_spec exTable ["Instagram", "Twitter"] "Instagram" (by decide)).1,
   (radarTraces_spec exTable ["Instagram", "Twitter"] "Instagram" (by decide)).2.2.1⟩

/-- A mapped list sum as a sum over the index type. -/
theorem list_map_sum_eq (l : List LoadedRecord) (h : LoadedRecord → ℚ) :
    (l.map h).sum = ∑ i : Fin l.length, h (l.get i) := by
  conv_lhs => rw [← List.ofFn_get l]
  rw [List.map_ofFn, Fin.sum_ofFn]
  rfl

/-- The deviation-product sum is symmetric in its two columns. -/
theorem covSum_comm (df : List LoadedRecord) (f g : LoadedRecord → ℚ) :
    covSum df f g = covSum df g f := by
  unfold covSum
  have hfg : (fun r => (f r - colMean df f) * (g r - colMean df g)) =
      (fun r => (g r - colMean df g) * (f r - colMean df f)) :=
    funext fun r => by ring
  rw [hfg]

/-- The squared-deviation sum of a column is nonnegative. -/
theorem covSum_self_nonneg (df : List LoadedRecord) (f : LoadedRecord → ℚ) :
    0 ≤ covSum df f f := by
  unfold covSum
  apply List.sum_nonneg
  intro x hx
  obtain ⟨r, _, rfl⟩ := List.mem_map.mp hx
  exact mul_self_nonneg _

/-- Cauchy-Schwarz for the deviation sums. -/
theorem covSum_sq_le (df : List LoadedRecord) (f g : LoadedRecord → ℚ) :
    covSum df f g ^ 2 ≤ covSum df f f * covSum df g g := by
  unfold covSum
  rw [list_map_sum_eq, list_map_sum_eq, list_map_sum_eq]
  have h := Finset.sum_mul_sq_le_sq_mul_sq Finset.univ
    (fun i : Fin df.length => f (df.get i) - colMean df f)
    (fun i : Fin df.length => g (df.get i) - colMean df g)
  calc (∑ i : Fin df.length,
          (f (df.get i) - colMean df f) * (g (df.get i) - colMean df g)) ^ 2
      ≤ (∑ i : Fin df.length, (f (df.get i) - colMean df f) ^ 2) *
        (∑ i : Fin df.length, (g (df.get i) - colMean df g) ^ 2) := h
    _ = _ := by simp only [pow_two]

/-- Correlation entries are symmetric. -/
theorem corrEntry_comm (df : List LoadedRecord) (f g : LoadedRecord → ℚ) :
    corrEntry df f g = corrEntry df g f := by
  by_cases h : covSum df f f = 0 ∨ covSum df g g = 0
  · rw [corrEntry, corrEntry, if_pos h, if_pos (Or.symm h)]
  · rw [corrEntry, corrEntry, if_neg h, if_neg fun hc => h (Or.symm hc)]
    rw [covSum_comm df f g, mul_comm]

/-- A diagonal entry with positive squared-deviation sum equals 1. -/
theorem corrEntry_self (df : List LoadedRecord) (f : LoadedRecord → ℚ)
    (h : 0 < covSum df f f) : corrEntry df f f = some 1 := by
  have hne : ¬(covSum df f f = 0 ∨ covSum df f f = 0) := by simp [h.ne']
  rw [corrEntry, if_neg hne]
  have hpos : (0:ℝ) < ((covSum df f f : ℚ) : ℝ) := by exact_mod_cast h
  rw [Real.mul_self_sqrt hpos.le, div_self (ne_of_gt hpos)]

/-- Every defined correlation entry lies in [-1, 1]. -/
theorem corrEntry_bounds (df : List LoadedRecord) (f g : LoadedRecord → ℚ) (x : ℝ)
    (h : corrEntry df f g = some x) : -1 ≤ x ∧ x ≤ 1 := by
  rw [corrEntry] at h
  by_cases hc : covSum df f f = 0 ∨ covSum df g g = 0
  · rw [if_pos hc] at h
    exact absurd h (by simp)
  · rw [if_neg hc] at h
    push_neg at hc
    have hf : 0 < covSum df f f :=
      lt_of_le_of_ne (covSum_self_nonneg df f) (Ne.symm hc.1)
    have hg : 0 < covSum df g g :=
      lt_of_le_of_ne (covSum_self_nonneg df g) (Ne.symm hc.2)
    have hX : (0:ℝ) < ((covSum df f f : ℚ) : ℝ) := by exact_mod_cast hf
    have hY : (0:ℝ) < ((covSum df g g : ℚ) : ℝ) := by exact_mod_cast hg
    have hS : (((covSum df f g : ℚ) : ℝ)) ^ 2 ≤
        ((covSum df f f : ℚ) : ℝ) * ((covSum df g g : ℚ) : ℝ) := by
      exact_mod_cast covSum_sq_le df f g
    have hden : 0 < Real.sqrt ((covSum df f f : ℚ) : ℝ) *
        Real.sqrt ((covSum df g g : ℚ) : ℝ) :=
      mul_pos (Real.sqrt_pos.mpr hX) (Real.sqrt_pos.mpr hY)
    have habs : |((covSum df f g : ℚ) : ℝ)| ≤
        Real.sqrt ((covSum df f f : ℚ) : ℝ) * Real.sqrt ((covSum df g g : ℚ) : ℝ) := by
      rw [← Real.sqrt_sq_eq_abs, ← Real.sqrt_mul hX.le]
      exact Real.sqrt_le_sqrt hS
    have hx : x = ((covSum df f g : ℚ) : ℝ) /
        (Real.sqrt ((covSum df f f : ℚ) : ℝ) * Real.sqrt ((covSum df g g : ℚ) : ℝ)) :=
      (Option.some.inj h).symm
    have habs1 : |x| ≤ 1 := by
      rw [hx, abs_div, abs_of_pos hden, div_le_one hden]
      exact habs
    exact abs_le.mp habs1

/-- Closed form of one matrix entry of `corrMatrix`. -/
theorem matrixGet_corrMatrix (df : List LoadedRecord) (i j : Nat) :
    matrixGet (corrMatrix df) i j =
      (numericProjections.get? i).bind fun f =>
        (numericProjections.get? j).map fun g => corrEntry df f g := by
  rw [matrixGet, corrMatrix, List.get?_map]
  cases numericProjections.get? i <;> simp [List.get?_map]

/-- Claim C7 (amended): the Pearson correlation matrix of the Filtered View is
symmetric; a diagonal entry is exactly 1 whenever its column has positive
variance (positive squared-deviation sum); and every entry that is defined (not
the NaN sentinel) lies in [-1, 1].  Entries are NaN when either column has zero
variance, e.g. on an empty view or a constant column. -/
theorem corrMatrix_props (df : List LoadedRecord) (i j : Nat) :
    (matrixGet (corrMatrix df) i j = matrixGet (corrMatrix df) j i) ∧
    (∀ f, numericProjections.get? i = some f → 0 < covSum df f f →
      matrixGet (corrMatrix df) i i = some (some 1)) ∧
    (∀ x : ℝ, matrixGet (corrMatrix df) i j = some (some x) → -1 ≤ x ∧ x ≤ 1) := by
  refine ⟨?_, ?_, ?_⟩
  · rw [matrixGet_corrMatrix, matrixGet_corrMatrix]
    cases numericProjections.get? i <;> cases numericProjections.get? j <;>
      simp [corrEntry_comm]
  · intro f hf hv
    rw [matrixGet_corrMatrix, hf]
    simp [corrEntry_self df f hv]
  · intro x hx
    rw [matrixGet_corrMatrix] at hx
    cases hi : numericProjections.get? i with
    | none => rw [hi] at hx; exact absurd hx (by simp)
    | some f =>
      rw [hi] at hx
      cases hj : numericProjections.get? j with
      | none => rw [hj] at hx; exact absurd hx (by simp)
      | some g =>
        rw [hj] at hx
        simp only [Option.some_bind, Option.map_some] at hx
        exact corrEntry_bounds df f g x (Option.some.inj hx)

/-- Witness for C7 on the example table: the Age column has positive
squared-deviation sum and the (Age, Age) diagonal entry is exactly 1. -/
theorem corrMatrix_props_witness :
    0 < covSum exTable (fun r => (r.age : ℚ)) (fun r => (r.age : ℚ)) ∧
    matrixGet (corrMatrix exTable) 0 0 = some (some 1) := by
  have h : 0 < covSum exTable (fun r => (r.age : ℚ)) (fun r => (r.age : ℚ)) := by
    norm_num [covSum, colMean, exTable, loadTable, addAgeRange,
      exRecord1, exRecord2, exRecord3]
  exact ⟨h, (corrMatrix_props exTable 0 0).2.1 _ rfl h⟩

/-- Counterexample to C7 as literally stated: over the constant-age table the
(Age, Happiness) entry of the correlation matrix exists but is the NaN
sentinel, hence is not a real value in [-1, 1]. -/
theorem corrMatrix_claim_counterexample :
    ∃ e, matrixGet (corrMatrix cexTable) 0 4 = some e ∧
      ¬∃ x : ℝ, e = some x ∧ -1 ≤ x ∧ x ≤ 1 := by
  refine ⟨none, ?_, by simp⟩
  rw [matrixGet_corrMatrix]
  have h0 : covSum cexTable (fun r => (r.age : ℚ)) (fun r => (r.age : ℚ)) = 0 := by
    norm_num [covSum, colMean, cexTable, loadTable, addAgeRange]
  show some (corrEntry cexTable (fun r => (r.age : ℚ))
    (fun r => r.happinessIndex)) = some none
  rw [corrEntry, if_pos (Or.inl h0)]
